import Mathlib

/-!
A Lean model of the per-sample QC evaluation engine of `bactQC/core.py`
(class `Genome`).  File reading, pandas table parsing and HTTP transport are
abstracted into explicit parameters (a parsed row, an oracle for a download),
while every piece of decision logic is translated directly from the Python
source.  Python numbers are modelled by `Int`/`Rat`, Python dictionaries that
the code mutates by association lists, and Python exceptions by an `Except`
monad over `PyError`.
-/

namespace BactQC

/-- Kinds of Python exceptions raised on the modelled code paths of
`bactQC/core.py`. -/
inductive PyError where
  | fileNotFoundError
  | valueError
  | indexError
  | requestException
  | xmlError
deriving DecidableEq, Repr

instance {ε α : Type} [DecidableEq ε] [DecidableEq α] : DecidableEq (Except ε α) :=
  fun a b =>
    match a, b with
    | .error e, .error f =>
      if h : e = f then .isTrue (by rw [h]) else .isFalse (fun hh => h (Except.error.inj hh))
    | .error _, .ok _ => .isFalse (fun hh => Except.noConfusion hh)
    | .ok _, .error _ => .isFalse (fun hh => Except.noConfusion hh)
    | .ok x, .ok y =>
      if h : x = y then .isTrue (by rw [h]) else .isFalse (fun hh => h (Except.ok.inj hh))

/-- Drop the leading whitespace characters of a character list, as Python's
argumentless `str.split` does before cutting tokens. -/
def dropLeadingWhitespace : List Char → List Char
  | [] => []
  | c :: rest => if c.isWhitespace then dropLeadingWhitespace rest else c :: rest

/-- Model of the Python idiom `s.split()[0] if s else ''` used in
`check_bracken` (core.py lines 374-375): an empty (falsy) string yields `''`;
otherwise the string is split on runs of whitespace and the first token is
taken, raising `IndexError` when the string is whitespace only. -/
def pySplitHead (s : String) : Except PyError String :=
  if s = "" then .ok ""
  else
    match dropLeadingWhitespace s.toList with
    | [] => .error .indexError
    | c :: rest => .ok (String.mk ((c :: rest).takeWhile (fun ch => !ch.isWhitespace)))

/-- The row of a per-sample `<sample>.bracken.tsv` table after the `sample`
column is dropped: the fields of `bracken_result` that `check_bracken`
(core.py lines 331-387) reads or carries through. -/
structure BrackenRow where
  bracken_primary_species : String
  bracken_primary_species_abundance : Rat
  bracken_secondary_species : String
  bracken_secondary_species_abundance : Rat
deriving DecidableEq, Repr

/-- The dictionary stored in `qc_data[sample]['bracken']` by `check_bracken`. -/
structure BrackenResult where
  bracken_primary_species : String
  bracken_primary_species_abundance : Rat
  bracken_secondary_species : String
  bracken_secondary_species_abundance : Rat
  passed_bracken_QC : Bool
  primary_abundance_requirement : Rat
  genus_conflict : Bool
deriving DecidableEq, Repr

/-- The sentinel string Bracken writes when no secondary organism reached 1%
abundance; `check_bracken` (core.py line 372) decides the presence of a
secondary species by comparing against it. -/
def noSecondarySentinel : String := "No secondary abundance > 1%"

/-- Model of `Genome.check_bracken` (core.py lines 331-387) on a parsed
single-row table.  The upstream file-existence and exactly-one-row checks are
performed before the row reaches this logic and are abstracted away; every
computation on the row itself is translated line by line. -/
def check_bracken (row : BrackenRow) (min_primary_abundance : Rat) :
    Except PyError BrackenResult :=
  -- line 363: passed_bracken_QC = abundance > min_primary_abundance
  let passed : Bool := decide (row.bracken_primary_species_abundance > min_primary_abundance)
  -- line 372: has_secondary_species = secondary != sentinel
  let has_secondary : Bool := decide (row.bracken_secondary_species ≠ noSecondarySentinel)
  -- lines 374-375: first whitespace token of each species name
  match pySplitHead row.bracken_primary_species with
  | .error e => .error e
  | .ok primary_genus =>
    match pySplitHead row.bracken_secondary_species with
    | .error e => .error e
    | .ok secondary_genus =>
      -- line 376: {'Escherichia', 'Shigella'} == {primary_genus, secondary_genus}
      let is_ecoli_or_shigella : Bool :=
        decide (({primary_genus, secondary_genus} : Finset String) =
          ({"Escherichia", "Shigella"} : Finset String))
      -- lines 378-381
      let conflict : Bool :=
        if has_secondary && is_ecoli_or_shigella then
          decide (primary_genus ≠ secondary_genus)
        else
          false
      .ok ⟨row.bracken_primary_species, row.bracken_primary_species_abundance,
           row.bracken_secondary_species, row.bracken_secondary_species_abundance,
           passed, min_primary_abundance, conflict⟩

/-- Replace only the numeric secondary-abundance field of a Bracken row. -/
def setSecondaryAbundance (row : BrackenRow) (q : Rat) : BrackenRow :=
  ⟨row.bracken_primary_species, row.bracken_primary_species_abundance,
   row.bracken_secondary_species, q⟩

/-- A concrete Bracken row matching the spec scenario: primary
`Escherichia coli` at abundance 0.95, secondary `Shigella flexneri` at 5%. -/
def brackenRowEx : BrackenRow :=
  ⟨"Escherichia coli", mkRat 95 100, "Shigella flexneri", mkRat 5 100⟩

/-- The result `check_bracken` produces on `brackenRowEx` with minimum 0.60. -/
def brackenResultEx : BrackenResult :=
  ⟨"Escherichia coli", mkRat 95 100, "Shigella flexneri", mkRat 5 100, true, mkRat 60 100, true⟩

/-- A concrete boundary row: primary abundance exactly equal to the
configured minimum, and no secondary organism reported. -/
def brackenRowBoundary : BrackenRow :=
  ⟨"Escherichia coli", mkRat 3 5, noSecondarySentinel, 0⟩

/-- The result `check_bracken` produces on `brackenRowBoundary` with
minimum 0.60. -/
def brackenResultBoundary : BrackenResult :=
  ⟨"Escherichia coli", mkRat 3 5, noSecondarySentinel, 0, false, mkRat 3 5, false⟩

/-- C3: for every abundance record processed by `check_bracken`,
`genus_conflict` is true iff a secondary organism is reported (the secondary
field differs from the sentinel), the unordered pair of primary and secondary
genus strings is exactly \x7bEscherichia, Shigella\x7d, and the two genus
strings differ; any other genus pair with a secondary hit yields
`genus_conflict = false`. -/
theorem genus_conflict_characterization (row : BrackenRow) (minA : Rat)
    (p s : String)
    (hp : pySplitHead row.bracken_primary_species = .ok p)
    (hs : pySplitHead row.bracken_secondary_species = .ok s)
    (r : BrackenResult) (hr : check_bracken row minA = .ok r) :
    r.genus_conflict = true ↔
      (row.bracken_secondary_species ≠ noSecondarySentinel ∧
       ({p, s} : Finset String) = ({"Escherichia", "Shigella"} : Finset String) ∧
       p ≠ s) := by
  simp only [check_bracken, hp, hs] at hr
  cases hr
  by_cases h1 : row.bracken_secondary_species = noSecondarySentinel <;>
    by_cases h2 : ({p, s} : Finset String) =
      ({"Escherichia", "Shigella"} : Finset String) <;>
    by_cases h3 : p = s <;>
    simp [h1, h2, h3]

/-- Witness for C3 at the spec scenario row. -/
theorem genus_conflict_characterization_witness :
    brackenResultEx.genus_conflict = true ↔
      (brackenRowEx.bracken_secondary_species ≠ noSecondarySentinel ∧
       ({"Escherichia", "Shigella"} : Finset String) =
         ({"Escherichia", "Shigella"} : Finset String) ∧
       ("Escherichia" : String) ≠ "Shigella") :=
  genus_conflict_characterization brackenRowEx (mkRat 60 100) "Escherichia" "Shigella"
    (by decide) (by decide) brackenResultEx (by decide)

/-- C7: `passed_bracken_QC` holds iff the primary abundance fraction is
strictly greater than the configured minimum; equality yields false. -/
theorem passed_bracken_strict_inequality (row : BrackenRow) (minA : Rat)
    (r : BrackenResult) (hr : check_bracken row minA = .ok r) :
    r.passed_bracken_QC = true ↔ row.bracken_primary_species_abundance > minA := by
  simp only [check_bracken] at hr
  cases hph : pySplitHead row.bracken_primary_species with
  | error e => simp [hph] at hr
  | ok p =>
    cases hsh : pySplitHead row.bracken_secondary_species with
    | error e => simp [hph, hsh] at hr
    | ok s =>
      simp only [hph, hsh] at hr
      cases hr
      simp

/-- Witness for C7 at the boundary row: abundance exactly 0.60 with minimum
0.60 does not pass. -/
theorem passed_bracken_strict_inequality_witness :
    brackenResultBoundary.passed_bracken_QC = true ↔
      brackenRowBoundary.bracken_primary_species_abundance > mkRat 3 5 :=
  passed_bracken_strict_inequality brackenRowBoundary (mkRat 3 5)
    brackenResultBoundary (by decide)

/-- C9: the outcome of `check_bracken` never depends on the numeric
secondary-abundance value: replacing that field leaves the whole result
(hence both `passed_bracken_QC` and `genus_conflict`) unchanged except for the
carried-through copy of the field itself; whether a secondary organism is
considered present is decided solely by comparing the secondary-species string
with the sentinel. -/
theorem check_bracken_ignores_secondary_abundance (row : BrackenRow)
    (minA q : Rat) :
    (check_bracken (setSecondaryAbundance row q) minA).map
        (fun r => (r.passed_bracken_QC, r.genus_conflict)) =
      (check_bracken row minA).map
        (fun r => (r.passed_bracken_QC, r.genus_conflict)) := by
  simp only [check_bracken, setSecondaryAbundance]
  cases h1 : pySplitHead row.bracken_primary_species <;>
    cases h2 : pySplitHead row.bracken_secondary_species <;>
    simp [h1, h2, Except.map]

/-- The dictionary assembled from the NCBI expected-genome-size XML response
by `get_expected_genome_size` (core.py lines 273-279).  `organism_name` and
`species_taxid` come from `findtext`, which returns `None` when the element is
missing, modelled by `Option`. -/
structure GenomeSizeData where
  organism_name : Option String
  species_taxid : Option String
  expected_ungapped_length : Int
  minimum_ungapped_length : Int
  maximum_ungapped_length : Int
deriving DecidableEq, Repr

/-- The row of a per-sample assembler table `<sample>.tsv` after the `sample`
column is dropped: the fields `check_assembly_scan` (core.py lines 498-565)
reads. -/
structure AssemblyScanRow where
  total_contig : Int
  n50_contig_length : Int
  total_contig_length : Int
deriving DecidableEq, Repr

/-- The pass/fail flags `check_assembly_scan` adds to the assembly-scan
dictionary (core.py lines 538-552). -/
structure AssemblyScanResult where
  total_contig : Int
  n50_contig_length : Int
  total_contig_length : Int
  passed_contigs : Bool
  passed_N50 : Bool
  passed_genome_size : Bool
  passed_assembly_scan : Bool
deriving DecidableEq, Repr

/-- Model of the flag computation of `Genome.check_assembly_scan`
(core.py lines 498-565) on a parsed single-row table and an already resolved
genome-size record.  File lookup, the exactly-one-row check and the on-demand
call to `get_expected_genome_size` are performed before this logic and are
abstracted away. -/
def check_assembly_scan (row : AssemblyScanRow) (data : GenomeSizeData)
    (maximum_contigs minimum_n50 : Int) : AssemblyScanResult :=
  -- line 538: passed_contigs = total_contig < maximum_contigs
  let passed_contigs : Bool := decide (row.total_contig < maximum_contigs)
  -- line 539: passed_N50 = n50_contig_length > minimum_n50
  let passed_N50 : Bool := decide (row.n50_contig_length > minimum_n50)
  -- lines 543-547: open-interval genome-size test
  let min_length := data.minimum_ungapped_length
  let max_length := data.maximum_ungapped_length
  let total_length := row.total_contig_length
  let passed_genome_size : Bool :=
    decide (total_length > min_length) && decide (total_length < max_length)
  -- lines 548-552: conjunction of the three flags
  let passed_assembly_scan : Bool := passed_contigs && passed_N50 && passed_genome_size
  ⟨row.total_contig, row.n50_contig_length, row.total_contig_length,
   passed_contigs, passed_N50, passed_genome_size, passed_assembly_scan⟩

/-- C6: `passed_genome_size` holds iff `total_contig_length` lies strictly
between the minimum and the maximum ungapped length (open interval), so a
total length exactly equal to either bound fails the genome-size check. -/
theorem passed_genome_size_open_interval (row : AssemblyScanRow)
    (data : GenomeSizeData) (maxContigs minN50 : Int) :
    (check_assembly_scan row data maxContigs minN50).passed_genome_size = true ↔
      (data.minimum_ungapped_length < row.total_contig_length ∧
       row.total_contig_length < data.maximum_ungapped_length) := by
  simp [check_assembly_scan]

/-- Value of a NumPy float64 scalar as produced by dividing integer scalars,
idealized to an exact rational when finite but keeping the IEEE special
values that division by zero produces. -/
inductive PyFloat where
  | finite (q : Rat)
  | inf
  | negInf
  | nan
deriving DecidableEq, Repr

/-- NumPy true division of integer scalars, as in `int / numpy.int64`: a
zero divisor does not raise `ZeroDivisionError`; the division emits a
RuntimeWarning and returns `inf`, `-inf` or `nan` according to the sign of
the numerator. -/
def npDivInt (a b : Int) : PyFloat :=
  if b = 0 then
    if 0 < a then .inf else if a < 0 then .negInf else .nan
  else
    .finite (Rat.divInt a b)

/-- IEEE comparison `x > m` between a float value and a finite number:
`inf` exceeds every finite number, `-inf` none, and every comparison with
`nan` is false. -/
def pyFloatGtRat (x : PyFloat) (m : Rat) : Bool :=
  match x with
  | .finite q => decide (q > m)
  | .inf => true
  | .negInf => false
  | .nan => false

/-- Round a rational to the nearest integer with ties to even, the rule of
Python's built-in `round`.  Computed on `num`/`den` with integer floor
division so that it evaluates by kernel reduction. -/
def roundHalfEven (q : Rat) : Int :=
  let n := q.num
  let d : Int := (q.den : Int)
  let f := n.fdiv d
  let rem := n - f * d
  if 2 * rem < d then f
  else if d < 2 * rem then f + 1
  else if f % 2 = 0 then f else f + 1

/-- Model of Python's `round(x, 2)` on an exact rational: scale by 100, round
half to even, and scale back. -/
def pyRound2 (q : Rat) : Rat :=
  Rat.divInt (roundHalfEven (Rat.divInt (q.num * 100) (q.den : Int))) 100

/-- Python's `round(x, 2)` on a float value: the IEEE special values round to
themselves; finite values round half to even. -/
def pyFloatRound2 (x : PyFloat) : PyFloat :=
  match x with
  | .finite q => .finite (pyRound2 q)
  | .inf => .inf
  | .negInf => .negInf
  | .nan => .nan

/-- The metrics dictionary `check_fastp` builds from the fastp JSON document
(core.py lines 600-610). -/
structure FastpData where
  pre_filt_total_reads : Int
  pre_filt_total_bases : Int
  pre_filt_q30_rate : Rat
  pre_filt_gc : Rat
  post_filt_total_reads : Int
  post_filt_total_bases : Int
  post_filt_q20_rate : Rat
  post_filt_q30_rate : Rat
  post_filt_gc : Rat
deriving DecidableEq, Repr

/-- The dictionary stored in `qc_data[sample]['fastp']` by `check_fastp`. -/
structure FastpResult where
  pre_filt_total_reads : Int
  pre_filt_total_bases : Int
  pre_filt_q30_rate : Rat
  pre_filt_gc : Rat
  post_filt_total_reads : Int
  post_filt_total_bases : Int
  post_filt_q20_rate : Rat
  post_filt_q30_rate : Rat
  post_filt_gc : Rat
  coverage : PyFloat
  passed_q30_bases : Bool
  passed_coverage : Bool
  passed_fastp_QC : Bool
deriving DecidableEq, Repr

/-- Model of `Genome.check_fastp` (core.py lines 567-653) on the parsed JSON
metrics and an already determined assembly total length.  File lookup, JSON
decoding and the on-demand `get_assembly_size` call are abstracted away.
`total_length` is the pandas/NumPy int64 scalar extracted at line 327, so the
divisions at line 619 and inside the `try` at line 623 follow NumPy
semantics and never raise: with a zero length they yield `inf` (or `nan` for
zero bases) under a RuntimeWarning, the `except ZeroDivisionError` handler at
lines 624-625 can never fire, and within this fragment the function always
completes. -/
def check_fastp (fastp : FastpData) (total_length : Int)
    (min_q30_bases min_coverage : Rat) : FastpResult :=
  -- lines 619 and 622-625: both divisions return the same NumPy float and
  -- neither raises, so the ZeroDivisionError fallback to 0 is dead code
  let coverage : PyFloat := npDivInt fastp.post_filt_total_bases total_length
  -- line 628: fastp_results['coverage'] = round(coverage, 2)
  let rounded := pyFloatRound2 coverage
  -- line 631: passed_q30_bases = post_filt_q30_rate > min_q30_bases
  let passed_q30 : Bool := decide (fastp.post_filt_q30_rate > min_q30_bases)
  -- line 634: passed_coverage = coverage > min_coverage  (unrounded coverage)
  let passed_cov : Bool := pyFloatGtRat coverage min_coverage
  ⟨fastp.pre_filt_total_reads, fastp.pre_filt_total_bases,
   fastp.pre_filt_q30_rate, fastp.pre_filt_gc,
   fastp.post_filt_total_reads, fastp.post_filt_total_bases,
   fastp.post_filt_q20_rate, fastp.post_filt_q30_rate, fastp.post_filt_gc,
   rounded, passed_q30, passed_cov, passed_q30 && passed_cov⟩

/-- A concrete fastp document with 30001 post-filter bases, giving raw
coverage 30001/1000 = 30.001 against an assembly of length 1000. -/
def fastpDataCovEx : FastpData :=
  ⟨40000, 40000000, mkRat 9 10, mkRat 1 2, 30000, 30001,
   mkRat 97 100, mkRat 9 10, mkRat 1 2⟩

/-- C5: contrary to the claim (and to the intent of the dead
`try/except ZeroDivisionError` at core.py lines 622-625, which would make
coverage 0 and hence fail the coverage check), a zero assembled total length
does not give coverage 0 with `passed_coverage = false`: the NumPy int64
division yields `inf` without raising, the recorded coverage is `inf`, and
the sample passes the coverage check. -/
theorem check_fastp_zero_length_inf_passes :
    (check_fastp fastpDataCovEx 0 (mkRat 85 100) 30).coverage = PyFloat.inf ∧
      (check_fastp fastpDataCovEx 0 (mkRat 85 100) 30).passed_coverage = true := by
  decide

/-- C10: `passed_coverage` is decided on the unrounded coverage while the
recorded coverage metric is rounded to 2 decimal places, so an input with raw
coverage 30.001 against minimum 30 reports coverage = 30 (equal to the
configured minimum) yet `passed_coverage = true`. -/
theorem coverage_rounding_boundary_pass :
    (check_fastp fastpDataCovEx 1000 (mkRat 85 100) 30).coverage =
        PyFloat.finite 30 ∧
      (check_fastp fastpDataCovEx 1000 (mkRat 85 100) 30).passed_coverage = true := by
  decide

/-- A raw row of the header-less per-sample MLST table, ten tab-separated
fields indexed as pandas does before column names are assigned: `col0` is the
sample file name, `col1` the scheme, `col2` the sequence type and `col3`-`col9`
the seven allele calls (core.py lines 435-452). -/
structure MlstRow where
  col0 : String
  col1 : String
  col2 : String
  col3 : String
  col4 : String
  col5 : String
  col6 : String
  col7 : String
  col8 : String
  col9 : String
deriving DecidableEq, Repr

/-- The dictionary stored in `qc_data[sample]['mlst']`.  In the short-circuit
branch of `check_mlst` the stored dictionary has no `passed_mlst` key, which
is modelled by `none`. -/
structure MlstRecord where
  scheme : String
  ST : String
  allele1 : String
  allele2 : String
  allele3 : String
  allele4 : String
  allele5 : String
  allele6 : String
  allele7 : String
  passed_mlst : Option Bool
deriving DecidableEq, Repr

/-- Everything `check_mlst` writes for a sample: the record placed in
`qc_data`, the boolean placed in `qc_results['mlst']`, and the
`expected_genus` recorded in `qc_requirements`. -/
structure MlstOutcome where
  record : MlstRecord
  mlst_result : Bool
  expected_genus_req : String
deriving DecidableEq, Repr

/-- A row of the remote `scheme_species_map.tab` reference table, restricted
to the two columns `check_mlst` reads: `GENUS` and `#SCHEME` (the latter
named `SCHEME` here). -/
structure SchemeMapRow where
  GENUS : String
  SCHEME : String
deriving DecidableEq, Repr

/-- Check whether `p` occurs as a contiguous sublist of `l`. -/
def listContainsSub (l p : List Char) : Bool :=
  match l with
  | [] => p.isEmpty
  | _ :: t => p.isPrefixOf l || listContainsSub t p

/-- Substring containment on strings, modelling a regex-free use of pandas
`str.contains`. -/
def strContainsSub (s pat : String) : Bool :=
  listContainsSub s.toList pat.toList

/-- Model of `Genome.check_mlst` (core.py lines 389-496) on a parsed
single-row table.  The file lookup, the exactly-one-row check and the
derivation of `expected_genus` from genome-size data are performed before
this logic and abstracted away.  The download-or-read-cached step for
`scheme_species_map.tab` (lines 457-469) is the `load_scheme_map` oracle,
forced only after the short-circuit test at line 442 fails; its `#SCHEME`
alternatives joined by `|` into a regex are modelled as substring
alternatives, and the `.str.replace` cleanup of the dropped `sample` column
is omitted. -/
def check_mlst (row : MlstRow) (expected_genus : String)
    (load_scheme_map : Except PyError (List SchemeMapRow)) :
    Except PyError MlstOutcome :=
  -- line 442: if mlst_result.iloc[0, 1] == '-' and mlst_result.iloc[0, 2] == '-'
  if row.col1 = "-" ∧ row.col2 = "-" then
    -- lines 443-449: fixed untypeable placeholder, no reference-table access
    .ok ⟨⟨"-", "-", "-", "-", "-", "-", "-", "-", "-", none⟩, false, "-"⟩
  else
    match load_scheme_map with
    | .error e => .error e
    | .ok scheme_species_map =>
      -- line 472: filter the reference table to the expected genus
      let filtered_schemes := scheme_species_map.filter
        (fun r => r.GENUS = expected_genus)
      -- line 477: '|'.join of the unique matching scheme names
      let scheme_names := (filtered_schemes.map (fun r => r.SCHEME)).dedup
      let matched_schemes := String.intercalate "|" scheme_names
      -- line 478: matched_schemes and any(scheme column contains the pattern)
      let passed : Bool :=
        decide (matched_schemes ≠ "") &&
          scheme_names.any (fun nm => strContainsSub row.col1 nm)
      .ok ⟨⟨row.col1, row.col2, row.col3, row.col4, row.col5, row.col6,
            row.col7, row.col8, row.col9, some passed⟩,
           passed, expected_genus⟩

/-- An MLST row whose first two allele fields (`col3`, `col4`, i.e. `allele1`
and `allele2`) are gap markers while the scheme and sequence-type fields are
not: the claimed short-circuit condition, which the code does not test. -/
def mlstRowAlleleGaps : MlstRow :=
  ⟨"s1.fna", "ecoli", "11", "-", "-", "1", "1", "1", "1", "1"⟩

/-- A one-row reference table mapping genus Escherichia to scheme `ecoli`. -/
def schemeMapEx : List SchemeMapRow := [⟨"Escherichia", "ecoli"⟩]

/-- C4 counterexample: on a typing row whose first two allele fields are both
gap markers but whose scheme and sequence-type fields are not, `check_mlst`
does not short-circuit: it consults the reference table and returns
`passed_mlst = true`, not the fixed placeholder with a false result. -/
theorem mlst_allele_gaps_no_short_circuit :
    check_mlst mlstRowAlleleGaps "Escherichia" (.ok schemeMapEx) =
      .ok ⟨⟨"ecoli", "11", "-", "-", "1", "1", "1", "1", "1", some true⟩,
           true, "Escherichia"⟩ := by decide

/-- C4 amended: the short-circuit of `check_mlst` tests the scheme and
sequence-type fields (the second and third columns of the header-less row),
not the allele fields: when both are the gap marker `-`, the result is the
fixed placeholder record with a false typing result, regardless of the
reference table, whose download is never attempted (even a failing
`load_scheme_map` oracle is irrelevant). -/
theorem mlst_scheme_st_gaps_short_circuit (row : MlstRow) (genus : String)
    (load : Except PyError (List SchemeMapRow))
    (h1 : row.col1 = "-") (h2 : row.col2 = "-") :
    check_mlst row genus load =
      .ok ⟨⟨"-", "-", "-", "-", "-", "-", "-", "-", "-", none⟩, false, "-"⟩ := by
  simp [check_mlst, h1, h2]

/-- Witness for the amended C4 on a concrete untypeable row, with an oracle
that would fail if the download step were reached. -/
theorem mlst_scheme_st_gaps_short_circuit_witness :
    check_mlst ⟨"s1.fna", "-", "-", "-", "-", "-", "-", "-", "-", "-"⟩
        "Escherichia" (.error .requestException) =
      .ok ⟨⟨"-", "-", "-", "-", "-", "-", "-", "-", "-", none⟩, false, "-"⟩ :=
  mlst_scheme_st_gaps_short_circuit
    ⟨"s1.fna", "-", "-", "-", "-", "-", "-", "-", "-", "-"⟩
    "Escherichia" (.error .requestException) (by decide) (by decide)

/-- Possible outcomes of one HTTP GET to the NCBI expected-genome-size
service followed by XML parsing (core.py lines 258-282): a transport error
(`requests.RequestException`, re-raised), an empty response body, a malformed
XML body, or a parsed field dictionary. -/
inductive FetchOutcome where
  | fetchFailure
  | emptyBody
  | badXml
  | body (d : GenomeSizeData)
deriving DecidableEq, Repr

/-- Python truthiness of `data.get('organism_name')`: false for a missing
element (`None`) and for the empty string. -/
def organismNameTruthy (d : GenomeSizeData) : Bool :=
  match d.organism_name with
  | none => false
  | some s => decide (s ≠ "")

/-- Model of the cache-and-fetch core of `Genome.get_expected_genome_size`
(core.py lines 249-293), after the taxonomic ID has been read from the
sample's abundance file (lines 231-247, abstracted into the `taxid`
argument).  The shared `taxid_cache` dictionary is an association list, the
network plus XML parsing is the `fetch` oracle, and the returned triple is
the resolved record, the cache after the call, and the number of network
calls the invocation issued. -/
def get_expected_genome_size (fetch : String → FetchOutcome)
    (taxid_cache : List (String × GenomeSizeData)) (taxid : String) :
    Except PyError (GenomeSizeData × List (String × GenomeSizeData) × Nat) :=
  match taxid_cache.lookup taxid with
  | some d =>
    -- lines 251-253: cache hit, no request issued
    .ok (d, taxid_cache, 0)
  | none =>
    -- lines 258-264: one GET through the shared session
    match fetch taxid with
    | .fetchFailure => .error .requestException
    | .emptyBody => .error .valueError
    | .badXml => .error .xmlError
    | .body d =>
      -- lines 287-291: cache the result only when organism_name is truthy
      if organismNameTruthy d then
        .ok (d, (taxid, d) :: taxid_cache, 1)
      else
        .error .valueError

/-- C8: resolving a taxonomic ID that is not yet cached issues exactly one
network call, inserts the result into the shared cache before returning, and
a later resolution of the same ID is answered from the cache with no further
network call. -/
theorem genome_size_cache_single_fetch (fetch : String → FetchOutcome)
    (taxid_cache : List (String × GenomeSizeData)) (taxid : String)
    (d : GenomeSizeData) (cache' : List (String × GenomeSizeData)) (n : Nat)
    (hmiss : taxid_cache.lookup taxid = none)
    (hok : get_expected_genome_size fetch taxid_cache taxid = .ok (d, cache', n)) :
    n = 1 ∧ cache'.lookup taxid = some d ∧
      get_expected_genome_size fetch cache' taxid = .ok (d, cache', 0) := by
  simp only [get_expected_genome_size, hmiss] at hok
  cases hf : fetch taxid <;> simp [hf] at hok
  rename_i d0
  by_cases htr : organismNameTruthy d0 = true
  · simp only [htr, if_true, Except.ok.injEq, Prod.mk.injEq] at hok
    obtain ⟨hd, hc, hn⟩ := hok
    subst hd
    subst hc
    subst hn
    refine ⟨rfl, ?_, ?_⟩
    · simp [List.lookup]
    · simp [get_expected_genome_size, List.lookup]
  · simp [htr] at hok

/-- A fetch oracle that always returns a fixed parsed record. -/
def fetchEx : String → FetchOutcome :=
  fun _ => .body ⟨some "Escherichia coli", some "562", 5000000, 4500000, 5500000⟩

/-- Witness for C8: resolving taxid 562 on an empty cache issues one call and
caches the record; resolving it again returns the cached record with none. -/
theorem genome_size_cache_single_fetch_witness :
    (1 : Nat) = 1 ∧
      ([("562", ⟨some "Escherichia coli", some "562", 5000000, 4500000, 5500000⟩)] :
        List (String × GenomeSizeData)).lookup "562" =
        some ⟨some "Escherichia coli", some "562", 5000000, 4500000, 5500000⟩ ∧
      get_expected_genome_size fetchEx
          [("562", ⟨some "Escherichia coli", some "562", 5000000, 4500000, 5500000⟩)]
          "562" =
        .ok (⟨some "Escherichia coli", some "562", 5000000, 4500000, 5500000⟩,
          [("562", ⟨some "Escherichia coli", some "562", 5000000, 4500000, 5500000⟩)], 0) :=
  genome_size_cache_single_fetch fetchEx [] "562"
    ⟨some "Escherichia coli", some "562", 5000000, 4500000, 5500000⟩
    [("562", ⟨some "Escherichia coli", some "562", 5000000, 4500000, 5500000⟩)] 1
    (by decide) (by decide)

/-- Set one key of a Python dictionary modelled as an insertion-ordered
association list: replace an existing binding in place or append a new one. -/
def setKey (d : List (String × Bool)) (k : String) (v : Bool) :
    List (String × Bool) :=
  match d with
  | [] => [(k, v)]
  | (k0, v0) :: rest => if k0 = k then (k, v) :: rest else (k0, v0) :: setKey rest k v

/-- Model of `Genome.overall_qc` (core.py lines 655-668): collect every value
currently recorded in `qc_results[sample]`, coerce each to a boolean (they
already are booleans here), and store their conjunction under `overall`. -/
def overall_qc (results : List (String × Bool)) : List (String × Bool) :=
  setKey results "overall" (results.all (fun kv => kv.2))

/-- The outcomes of the per-sample steps of `Genome.run` (core.py lines
67-93), with the file I/O abstracted: each field is the step's effect on
`qc_results[sample]` (`Except Unit Bool` for a check that on success records
its pass flag, `Except Unit Unit` for a step that records nothing), an
`error` meaning the step raised an exception that the batch-level handler
catches. -/
structure SampleRun where
  genome_size : Except Unit Unit
  assembly_size : Except Unit Unit
  bracken : Except Unit Bool
  genus : Except Unit Unit
  mlst : Except Unit Bool
  checkm : Except Unit Bool
  assembly_scan : Except Unit Bool
  fastp : Except Unit Bool
deriving DecidableEq, Repr

/-- Model of the per-sample body of `Genome.run` (core.py lines 67-93): run
the steps in program order, recording each successful check's flag in
`qc_results[sample]`; on the first raised exception, the handler at lines
91-93 keeps whatever was recorded and sets `overall` to false; when every
step succeeds, `overall_qc` records the conjunction of the recorded flags. -/
def run_sample (s : SampleRun) : List (String × Bool) :=
  match s.genome_size with
  | .error _ => setKey [] "overall" false
  | .ok _ =>
  match s.assembly_size with
  | .error _ => setKey [] "overall" false
  | .ok _ =>
  match s.bracken with
  | .error _ => setKey [] "overall" false
  | .ok b =>
  let r1 := setKey [] "bracken" b
  match s.genus with
  | .error _ => setKey r1 "overall" false
  | .ok _ =>
  match s.mlst with
  | .error _ => setKey r1 "overall" false
  | .ok m =>
  let r2 := setKey r1 "mlst" m
  match s.checkm with
  | .error _ => setKey r2 "overall" false
  | .ok c =>
  let r3 := setKey r2 "checkm" c
  match s.assembly_scan with
  | .error _ => setKey r3 "overall" false
  | .ok a =>
  let r4 := setKey r3 "assembly_scan" a
  match s.fastp with
  | .error _ => setKey r4 "overall" false
  | .ok f =>
  overall_qc (setKey r4 "fastp" f)

/-- Model of the batch loop of `Genome.run`: every sample of the batch is
processed, each by `run_sample`, independently of the others' failures. -/
def run (batch : List (String × SampleRun)) :
    List (String × List (String × Bool)) :=
  batch.map (fun p => (p.1, run_sample p.2))

/-- A row of the results table written by `get_qc_results`, restricted to the
boolean QC columns (the two detected-species string columns come from
`qc_data` and carry no QC logic). -/
structure QcRow where
  sample : String
  bracken : Bool
  mlst : Bool
  checkm : Bool
  assembly_scan : Bool
  fastp : Bool
  overall : Bool
deriving DecidableEq, Repr

/-- Model of the per-sample row construction of `Genome.get_qc_results`
(core.py lines 677-708): a sample with an empty result dictionary is skipped
(`none`); otherwise each boolean column missing from the dictionary is `NaN`
in the assembled frame and `fillna(False)` turns it into false. -/
def qc_row (sample : String) (results : List (String × Bool)) : Option QcRow :=
  if results.isEmpty then none
  else
    some ⟨sample,
      ((results.lookup "bracken").getD false),
      ((results.lookup "mlst").getD false),
      ((results.lookup "checkm").getD false),
      ((results.lookup "assembly_scan").getD false),
      ((results.lookup "fastp").getD false),
      ((results.lookup "overall").getD false)⟩

/-- Model of `Genome.get_qc_results` over a processed batch: one row per
sample that has any recorded result, in batch order. -/
def get_qc_results (processed : List (String × List (String × Bool))) :
    List QcRow :=
  processed.filterMap (fun p => qc_row p.1 p.2)

/-- C1: for every sample processed by `run`, the aggregated `overall` verdict
is recorded true iff every one of the five per-check booleans (bracken, mlst,
checkm, assembly_scan, fastp) is recorded and true; a check that was never
recorded (its step raised before reaching it) leaves `overall` false. -/
theorem overall_iff_all_checks (s : SampleRun) :
    (run_sample s).lookup "overall" = some true ↔
      ((run_sample s).lookup "bracken" = some true ∧
       (run_sample s).lookup "mlst" = some true ∧
       (run_sample s).lookup "checkm" = some true ∧
       (run_sample s).lookup "assembly_scan" = some true ∧
       (run_sample s).lookup "fastp" = some true) := by
  obtain ⟨gs, asz, br, ge, ml, ck, sc, fp⟩ := s
  rcases gs with ⟨⟨⟩⟩ | ⟨⟨⟩⟩ <;> rcases asz with ⟨⟨⟩⟩ | ⟨⟨⟩⟩ <;>
    rcases br with ⟨⟨⟩⟩ | (_ | _) <;> rcases ge with ⟨⟨⟩⟩ | ⟨⟨⟩⟩ <;>
    rcases ml with ⟨⟨⟩⟩ | (_ | _) <;> rcases ck with ⟨⟨⟩⟩ | (_ | _) <;>
    rcases sc with ⟨⟨⟩⟩ | (_ | _) <;> rcases fp with ⟨⟨⟩⟩ | (_ | _) <;>
    decide

/-- Whether the per-sample processing of `Genome.run` raises an exception:
the sequential execution hits an error exactly when some step's outcome is an
error. -/
def run_sample_raises (s : SampleRun) : Bool :=
  !s.genome_size.isOk || !s.assembly_size.isOk || !s.bracken.isOk ||
    !s.genus.isOk || !s.mlst.isOk || !s.checkm.isOk ||
    !s.assembly_scan.isOk || !s.fastp.isOk

/-- A sample whose processing raises an exception records `overall = false`
through the handler of `Genome.run` (core.py lines 91-93). -/
theorem overall_false_of_raises (s : SampleRun)
    (hr : run_sample_raises s = true) :
    (run_sample s).lookup "overall" = some false := by
  obtain ⟨gs, asz, br, ge, ml, ck, sc, fp⟩ := s
  rcases gs with ⟨⟨⟩⟩ | ⟨⟨⟩⟩ <;> rcases asz with ⟨⟨⟩⟩ | ⟨⟨⟩⟩ <;>
    rcases br with ⟨⟨⟩⟩ | (_ | _) <;> rcases ge with ⟨⟨⟩⟩ | ⟨⟨⟩⟩ <;>
    rcases ml with ⟨⟨⟩⟩ | (_ | _) <;> rcases ck with ⟨⟨⟩⟩ | (_ | _) <;>
    rcases sc with ⟨⟨⟩⟩ | (_ | _) <;> rcases fp with ⟨⟨⟩⟩ | (_ | _) <;>
    revert hr <;> decide

/-- A sample run that fails at the CheckM lookup after the abundance and
typing checks both recorded a passing result. -/
def sampleRunCheckmError : SampleRun :=
  ⟨.ok (), .ok (), .ok true, .ok (), .ok true, .error (), .ok true, .ok true⟩

/-- A sample run in which every step succeeds with a passing result. -/
def sampleRunAllPass : SampleRun :=
  ⟨.ok (), .ok (), .ok true, .ok (), .ok true, .ok true, .ok true, .ok true⟩

/-- C2 counterexample: a sample that raises at the CheckM step still appears
in the results with `overall = false`, but its `bracken` and `mlst` columns
are true, not absent or false: the per-check results recorded before the
error are kept. -/
theorem run_error_keeps_true_check :
    get_qc_results (run [("SRR1", sampleRunCheckmError)]) =
      [⟨"SRR1", true, true, false, false, false, false⟩] := by decide

/-- C2 amended: a sample whose processing raises an unrecovered error still
appears in the results table produced by `get_qc_results` with
`overall = false`, and the batch processes every sample regardless (the
per-check results recorded before the error keep their values and may be
true). -/
theorem run_error_sample_reported (batch : List (String × SampleRun))
    (name : String) (s : SampleRun)
    (hmem : (name, s) ∈ batch) (hr : run_sample_raises s = true) :
    ∃ row, row ∈ get_qc_results (run batch) ∧ row.sample = name ∧
      row.overall = false := by
  have hov : (run_sample s).lookup "overall" = some false :=
    overall_false_of_raises s hr
  have hne : (run_sample s).isEmpty = false := by
    cases hrs : run_sample s with
    | nil => rw [hrs] at hov; simp [List.lookup] at hov
    | cons a t => rfl
  refine ⟨⟨name, ((run_sample s).lookup "bracken").getD false,
    ((run_sample s).lookup "mlst").getD false,
    ((run_sample s).lookup "checkm").getD false,
    ((run_sample s).lookup "assembly_scan").getD false,
    ((run_sample s).lookup "fastp").getD false, false⟩, ?_, rfl, rfl⟩
  apply List.mem_filterMap.mpr
  refine ⟨(name, run_sample s), ?_, ?_⟩
  · exact List.mem_map_of_mem (fun p => (p.1, run_sample p.2)) hmem
  · simp [qc_row, hne, hov]

/-- Witness for the amended C2 on a two-sample batch whose first sample
fails at the CheckM step. -/
theorem run_error_sample_reported_witness :
    ∃ row, row ∈ get_qc_results
        (run [("SRR1", sampleRunCheckmError), ("SRR2", sampleRunAllPass)]) ∧
      row.sample = "SRR1" ∧ row.overall = false :=
  run_error_sample_reported
    [("SRR1", sampleRunCheckmError), ("SRR2", sampleRunAllPass)]
    "SRR1" sampleRunCheckmError (by decide) (by decide)

end BactQC
